import Mathlib

/-!
Shallow embedding of the meteora-wallet-metrics pipeline.

This file embeds the per-wallet analysis pipeline of the repository
(`meteora.py`, together with the `WalletProcessor` / `TaskProgress` parts of
`meteora-telegram-bot-v3.py` and `meteora-telegram-bot.py`) and settles the
frozen claims about it.

External collaborators (the Solana RPC client, the Helius DAS API, the
Meteora DLMM fee API and `Pubkey.from_string`) are modelled by an `Env`
record of possibly-failing functions: `Except Unit α` is the outcome of one
call, with `.error ()` standing for any raised exception, so a theorem
quantified over `Env` covers every behaviour of the collaborators.
-/

namespace MeteoraApp

/-! ### Calendar arithmetic

`datetime.utcfromtimestamp(ts)` is embedded as the proleptic-Gregorian civil
date of day number `ts / 86400` since 1970-01-01 (UTC);
`datetime.isocalendar()` is ported from CPython's `datetime.py`
(`_ymd2ord`, `_isoweek1monday`, `isocalendar`). -/

def isLeap (y : Nat) : Bool := (y % 4 == 0 && y % 100 != 0) || y % 400 == 0

/-- CPython `_days_before_year`: days before January 1st of `y`
(proleptic Gregorian ordinal arithmetic, ordinal 1 = 0001-01-01). -/
def daysBeforeYear (y : Nat) : Nat :=
  (y - 1) * 365 + (y - 1) / 4 - (y - 1) / 100 + (y - 1) / 400

/-- CPython `_days_before_month` (`_DAYS_BEFORE_MONTH` table plus leap fix). -/
def daysBeforeMonth (y m : Nat) : Nat :=
  [0, 31, 59, 90, 120, 151, 181, 212, 243, 273, 304, 334].getD (m - 1) 0
    + (if 2 < m && isLeap y then 1 else 0)

/-- CPython `_ymd2ord`. -/
def ymd2ord (y m d : Nat) : Nat := daysBeforeYear y + daysBeforeMonth y m + d

/-- Civil date `(year, month, day)` of day number `z` since 1970-01-01. -/
def civilFromDays (z : Nat) : Nat × Nat × Nat :=
  let d := z + 719468
  let era := d / 146097
  let doe := d % 146097
  let yoe := (doe - doe / 1460 + doe / 36524 - doe / 146096) / 365
  let y := yoe + era * 400
  let doy := doe - (365 * yoe + yoe / 4 - yoe / 100)
  let mp := (5 * doy + 2) / 153
  let day := doy - (153 * mp + 2) / 5 + 1
  let m := if mp < 10 then mp + 3 else mp - 9
  (if m ≤ 2 then y + 1 else y, m, day)

/-- `datetime.utcfromtimestamp` restricted to the calendar date part. -/
def utcDate (ts : Nat) : Nat × Nat × Nat := civilFromDays (ts / 86400)

/-- CPython `_isoweek1monday`: ordinal of the Monday starting ISO week 1. -/
def isoweek1monday (year : Nat) : Int :=
  let firstday : Int := ymd2ord year 1 1
  let firstweekday := (firstday + 6) % 7
  let week1monday := firstday - firstweekday
  if 3 < firstweekday then week1monday + 7 else week1monday

/-- CPython `date.isocalendar`, restricted to the `(ISO year, ISO week)`
pair used by `calculate_activity_metrics`. -/
def isocalYW (ymd : Nat × Nat × Nat) : Int × Int :=
  let y := ymd.1
  let today : Int := ymd2ord y ymd.2.1 ymd.2.2
  let week := (today - isoweek1monday y).ediv 7
  if week < 0 then
    ((y : Int) - 1, (today - isoweek1monday (y - 1)).ediv 7 + 1)
  else if 52 ≤ week && isoweek1monday (y + 1) ≤ today then ((y : Int) + 1, 1)
  else (y, week + 1)

/-- The `(year, week, _) = date.isocalendar()` bucket of one timestamp. -/
def weekBucket (ts : Nat) : Int × Int := isocalYW (utcDate ts)

/-- The `(date.year, date.month)` bucket of one timestamp. -/
def monthBucket (ts : Nat) : Nat × Nat := ((utcDate ts).1, (utcDate ts).2.1)

def pad2 (n : Nat) : String := if n < 10 then "0" ++ toString n else toString n

/-- `datetime.strftime` with format DD.MM.YYYY on a `(year, month, day)`
triple. -/
def formatDMY (ymd : Nat × Nat × Nat) : String :=
  pad2 ymd.2.2 ++ "." ++ pad2 ymd.2.1 ++ "." ++ toString ymd.1

/-! ### Constants of the repository -/

def METEORA_PROGRAM_ID : String := "LBUZKhRxPF3XUpBCjp4YzTKgLccjZhTSDM9YuVaPwxo"

/-- `meteora.py`: target asset id compared against `item.get("id")`. -/
def CNFT_MINT : String := "Cw4DD54N14aNNaRdhBCq7W9QQh8Bat812VuFbXbLC8bH"

/-- `meteora-telegram-bot-v3.py`: creator address of the certificate cNFT. -/
def CNFT_CREATOR_ADDRESS : String := "BC11Rk2ZoLxb7tjSpycXDyHnyTdYeaYMgbMwimh8DThX"

/-- `meteora-telegram-bot-v3.py`: name substring of the certificate cNFT. -/
def CNFT_NAME_MATCH : String := "Meteora LP Army Certificate"

/-! ### Transactions and the collaborator environment

A signature is opaque (modelled as `Nat`).  A decoded transaction exposes its
top-level instruction list; an instruction is either a
partially-decoded one (`UiPartiallyDecodedInstruction`: program id plus an
ordered account list) or a fully-parsed one, which the code always skips
via its `isinstance` check. -/

inductive Instruction where
  | pdecoded (programId : String) (accounts : List String)
  | parsed
deriving DecidableEq, Repr

structure Tx where
  instructions : List Instruction
deriving DecidableEq, Repr

/-- Outcomes of all external calls the pipeline makes.  `.error ()` is any
raised exception at that call site. -/
structure Env where
  /-- Helius response for `meteora.py`'s `check_cnft`: the `id` field of each
  item of `result.items` (`none` when the key is absent), or a failure. -/
  cnftItems : String → Except Unit (List (Option String))
  /-- whether `Pubkey.from_string wallet` succeeds. -/
  parseOk : String → Bool
  /-- `get_signatures_for_address`: `(signature, block_time)` pairs, or a
  failure of the whole request. -/
  sigs : String → Except Unit (List (Nat × Option Nat))
  /-- `get_transaction(sig, encoding="jsonParsed").value`: `none` models a
  null transaction, `.error ()` any exception. -/
  fetchTx : Nat → Except Unit (Option Tx)
  /-- fee endpoint `/wallet/{wallet}/{pool}/earning`: `.ok (some q)` is a
  well-formed `total_fee_usd_claimed` value, `.ok none` an absent field,
  `.error ()` a request failure or malformed number. -/
  fee : String → String → Except Unit (Option ℚ)

/-! ### `meteora.py` pipeline stages -/

/-- `meteora.py check_cnft`: any item whose `id` equals the target mint;
any exception yields `false`. -/
def check_cnft (env : Env) (wallet_address : String) : Bool :=
  match env.cnftItems wallet_address with
  | .ok items => items.any fun i => i == some CNFT_MINT
  | .error _ => false

/-- `meteora.py get_transactions`: keep `(signature, block_time)` for
signatures whose `block_time` is truthy (present and nonzero); any RPC
exception yields the empty list. -/
def get_transactions (env : Env) (wallet : String) : List (Nat × Nat) :=
  match env.sigs wallet with
  | .ok sigList =>
      sigList.filterMap fun p =>
        match p.2 with
        | some bt => if bt == 0 then none else some (p.1, bt)
        | none => none
  | .error _ => []

def isMeteoraInstr : Instruction → Bool
  | .pdecoded pid _ => pid == METEORA_PROGRAM_ID
  | .parsed => false

/-- Scan of `tx.transaction.transaction.message.instructions` in
`filter_meteora_transactions` (first match wins, `List.any` stops there). -/
def hasMeteoraInstr (tx : Tx) : Bool := tx.instructions.any isMeteoraInstr

/-- Whether `filter_meteora_transactions` keeps one `(sig, ts)` record:
fetch succeeded, transaction non-null, and some instruction matches.
A raised exception or a null transaction skips the record. -/
def keep_tx (env : Env) (sig : Nat) : Bool :=
  match env.fetchTx sig with
  | .ok (some tx) => hasMeteoraInstr tx
  | .ok none => false
  | .error _ => false

/-- `meteora.py filter_meteora_transactions`. -/
def filter_meteora_transactions (env : Env) (transactions : List (Nat × Nat)) :
    List (Nat × Nat) :=
  transactions.filter fun p => keep_tx env p.1

/-- Instruction loop of `extract_pool_address`: on a matching instruction,
`return str(instr.accounts[2])`, an `IndexError` falling through
(`continue`) to the next instruction. -/
def firstPoolAccount : List Instruction → Option String
  | [] => none
  | .parsed :: rest => firstPoolAccount rest
  | .pdecoded pid accounts :: rest =>
      if pid == METEORA_PROGRAM_ID then
        match accounts[2]? with
        | some a => some a
        | none => firstPoolAccount rest
      else firstPoolAccount rest

/-- `meteora.py extract_pool_address`. -/
def extract_pool_address (env : Env) (signature : Nat) : Option String :=
  match env.fetchTx signature with
  | .ok (some tx) => firstPoolAccount tx.instructions
  | .ok none => none
  | .error _ => none

/-- The `list(set(...))` pool collection in `process_wallet` (set semantics:
deduplicated, order irrelevant to the fee totals computed from it). -/
def pool_addresses (env : Env) (meteora_transactions : List (Nat × Nat)) :
    List String :=
  (meteora_transactions.filterMap fun p => extract_pool_address env p.1).dedup

/-- `meteora.py get_pool_fees`: the `total_fee_usd_claimed` field, defaulting
to `0.0` when absent, and `0.0` on any request failure or malformed value. -/
def get_pool_fees (env : Env) (wallet pool : String) : ℚ :=
  match env.fee wallet pool with
  | .ok (some q) => q
  | .ok none => 0
  | .error _ => 0

/-- `meteora.py calculate_activity_metrics`: sizes of the `weeks` and
`months` sets built from the timestamps. -/
def calculate_activity_metrics (timestamps : List Nat) : Nat × Nat :=
  ((timestamps.map weekBucket).toFinset.card,
   (timestamps.map monthBucket).toFinset.card)

/-- Python `min` over a nonempty list, given as head and tail. -/
def listMin (t : Nat) (rest : List Nat) : Nat := rest.foldl min t

/-- The `first_tx` computation of `process_wallet` (lines 232-235): the
default `"N/A"` on an empty list, otherwise `strftime` of the minimum. -/
def first_tx_of (timestamps : List Nat) : String :=
  match timestamps with
  | [] => "N/A"
  | t :: rest => formatDMY (utcDate (listMin t rest))

/-- The terminal metrics record of `process_wallet`. -/
structure WalletMetrics where
  wallet : String
  total_fees : ℚ
  pools_with_fees : Nat
  first_tx : String
  active_weeks : Nat
  active_months : Nat
  cnft : Bool
  blacklist : Bool
deriving DecidableEq, Repr

def initMetrics (wallet_address : String) : WalletMetrics :=
  { wallet := wallet_address
    total_fees := 0
    pools_with_fees := 0
    first_tx := "N/A"
    active_weeks := 0
    active_months := 0
    cnft := false
    blacklist := false }

/-- The fee loop of `process_wallet` (lines 246-250): accumulate
`total_fees`, count pools whose fee is at least `0.01`; a per-pool failure
contributes `0.0` (inside `get_pool_fees`) and the loop continues. -/
def feesFold (env : Env) (wallet : String) (pools : List String)
    (r : WalletMetrics) : WalletMetrics :=
  pools.foldl
    (fun acc pool =>
      let fees := get_pool_fees env wallet pool
      { acc with
          total_fees := acc.total_fees + fees
          pools_with_fees :=
            acc.pools_with_fees + (if (1 : ℚ)/100 ≤ fees then 1 else 0) })
    r

/-- `meteora.py process_wallet`.  The whole body runs under
`try/except`, so the record accumulated so far is returned whatever
happens; the stages before `Pubkey.from_string` always run, and every later
stage absorbs its own collaborator failures. -/
def process_wallet (env : Env) (wallet_address : String)
    (blacklist : List String) : WalletMetrics :=
  let base : WalletMetrics :=
    { initMetrics wallet_address with
        blacklist := blacklist.contains wallet_address
        cnft := check_cnft env wallet_address }
  if env.parseOk wallet_address then
    let meteora_transactions :=
      filter_meteora_transactions env (get_transactions env wallet_address)
    let timestamps := meteora_transactions.map Prod.snd
    let withDates : WalletMetrics :=
      { base with
          first_tx := first_tx_of timestamps
          active_weeks := (calculate_activity_metrics timestamps).1
          active_months := (calculate_activity_metrics timestamps).2 }
    feesFold env wallet_address (pool_addresses env meteora_transactions)
      withDates
  else
    base

/-! ### `meteora-telegram-bot-v3.py`: `TaskProgress` -/

/-- `TaskProgress` state (fields as in the Python class; `current` and
`total` are Python ints). -/
structure TaskProgress where
  task_name : String
  current : Int
  total : Int
  status : String
deriving DecidableEq, Repr

/-- Python `int(x)` on a nonnegative-or-negative rational: truncation
toward zero, as `int((current/total)*100)` performs. -/
def intTrunc (q : ℚ) : Int := if 0 ≤ q then ⌊q⌋ else -⌊-q⌋

/-- `TaskProgress.percent`: guard `total <= 0`, else
`int((current/total)*100)`. -/
def TaskProgress.percent (t : TaskProgress) : Int :=
  if t.total ≤ 0 then 0
  else intTrunc (((t.current : ℚ) / (t.total : ℚ)) * 100)

/-! ### `meteora-telegram-bot-v3.py`: the cNFT certificate check

An asset item of the Helius `getAssetsByOwner` response is modelled by the
fields the matching code reads.  A creator-list entry is `some address`
when it is a dict carrying an `address` key, and `none` otherwise (a
non-dict entry, or a dict without the key, never matches).
`serialized` stands for `str(item["content"])`, the string the lenient
heuristic searches for the keyword. -/

structure AssetContent where
  creators : Option (List (Option String))
  metadataName : Option String
  name : Option String
  serialized : String
deriving DecidableEq, Repr

structure Asset where
  creators : Option (List (Option String))
  name : Option String
  content : Option AssetContent
deriving DecidableEq, Repr

/-- Python `s.startswith(pat)` on character lists. -/
def startsWithChars : List Char → List Char → Bool
  | _, [] => true
  | [], _ :: _ => false
  | a :: as, b :: bs => (a == b) && startsWithChars as bs

/-- Python `pat in s` (substring containment) on character lists. -/
def containsChars : List Char → List Char → Bool
  | [], pat => pat.isEmpty
  | a :: as, pat => startsWithChars (a :: as) pat || containsChars as pat

/-- Python `pat in s` for strings. -/
def strContainsSub (s pat : String) : Bool := containsChars s.data pat.data

/-- Creator search of `check_cnft`: the standard `creators` location first,
then `content.creators` (checked only when the first failed, which is
extensionally a disjunction). -/
def creatorFound (item : Asset) : Bool :=
  let top :=
    match item.creators with
    | some cs => cs.any fun c => c == some CNFT_CREATOR_ADDRESS
    | none => false
  if top then true
  else
    match item.content with
    | some c =>
        match c.creators with
        | some cs => cs.any fun cr => cr == some CNFT_CREATOR_ADDRESS
        | none => false
    | none => false

/-- Name search of `check_cnft`: `content.metadata.name`, then `name`, then
`content.name`, each tested for the fixed substring. -/
def nameMatch (item : Asset) : Bool :=
  let n1 :=
    match item.content with
    | some c =>
        match c.metadataName with
        | some n => strContainsSub n CNFT_NAME_MATCH
        | none => false
    | none => false
  if n1 then true
  else
    let n2 :=
      match item.name with
      | some n => strContainsSub n CNFT_NAME_MATCH
      | none => false
    if n2 then true
    else
      match item.content with
      | some c =>
          match c.name with
          | some n => strContainsSub n CNFT_NAME_MATCH
          | none => false
      | none => false

/-- Python `s.lower()` on the character list (ASCII lowering; the fixed
keyword searched for is plain ASCII). -/
def pyLower (s : String) : List Char := s.data.map Char.toLower

/-- The keyword heuristic: `"meteora" in str(item["content"]).lower()`,
reached only for items whose creator already matched. -/
def contentMeteora (item : Asset) : Bool :=
  match item.content with
  | some c => containsChars (pyLower c.serialized) "meteora".data
  | none => false

/-- Last-resort fallback loop of `check_cnft`: a creator match at the
standard top-level `creators` location alone. -/
def topCreatorMatch (item : Asset) : Bool :=
  match item.creators with
  | some cs => cs.any fun c => c == some CNFT_CREATOR_ADDRESS
  | none => false

/-- `WalletProcessor.check_cnft` match result over the returned items:
the main loop returns at the first item with both matches, or with a
creator match plus the keyword in its serialized content; the emergency
fallback loop then accepts any top-level creator match. -/
def check_cnft_items (items : List Asset) : Bool :=
  if items.any fun item =>
      (creatorFound item && nameMatch item)
        || (creatorFound item && contentMeteora item) then
    true
  else
    items.any topCreatorMatch

/-! ### Claim-side reference definitions (for refinement comparison)

These two definitions follow the words of claims C1 and C2 rather than the
source, so the code can be compared against them. -/

def instrAccount2 : Instruction → Option String
  | .pdecoded _ accounts => accounts[2]?
  | .parsed => none

/-- C1 as written: the address at fixed index 2 of the account list of the
FIRST instruction matching the target program id; out-of-range index (or a
failed fetch, or a null transaction) contributes nothing. -/
def claimExtractPool (env : Env) (signature : Nat) : Option String :=
  match env.fetchTx signature with
  | .ok (some tx) =>
      match tx.instructions.find? isMeteoraInstr with
      | some i => instrAccount2 i
      | none => none
  | .ok none => none
  | .error _ => none

/-- What `extract_pool_address` actually computes (the amended C1): index 2
of the first matching instruction whose account list is long enough,
later matching instructions being tried when an earlier one is short. -/
def amendedExtractPool (env : Env) (signature : Nat) : Option String :=
  match env.fetchTx signature with
  | .ok (some tx) =>
      ((tx.instructions.filter isMeteoraInstr).filterMap instrAccount2).head?
  | .ok none => none
  | .error _ => none

/-- C2 as written: both matches on one asset, or a creator-only match, or a
keyword match in serialized content — the last two applied independently. -/
def claimCnftItems (items : List Asset) : Bool :=
  (items.any fun item => creatorFound item && nameMatch item)
    || (items.any fun item => creatorFound item)
    || (items.any fun item => contentMeteora item)

/-! ### Concrete scenarios used by counterexamples and witnesses -/

/-- A fully-failing collaborator environment: every external call raises. -/
def failEnv : Env :=
  { cnftItems := fun _ => .error ()
    parseOk := fun _ => false
    sigs := fun _ => .error ()
    fetchTx := fun _ => .error ()
    fee := fun _ _ => .error () }

/-- C1 counterexample transaction: the first matching instruction has only
two accounts, the second has three. -/
def txShortFirst : Tx :=
  ⟨[.pdecoded METEORA_PROGRAM_ID ["A", "B"],
    .pdecoded METEORA_PROGRAM_ID ["A", "B", "P"]]⟩

def envC1 : Env :=
  { failEnv with fetchTx := fun _ => .ok (some txShortFirst) }

/-- C2 counterexample: no creators anywhere, keyword in serialized content. -/
def assetKeywordOnly : Asset :=
  { creators := none
    name := none
    content := some
      { creators := none
        metadataName := none
        name := none
        serialized := "Meteora DLMM position" } }

/-- C2 counterexample: creator match only at `content.creators`, no name
match, no keyword. -/
def assetContentCreatorOnly : Asset :=
  { creators := none
    name := none
    content := some
      { creators := some [some CNFT_CREATOR_ADDRESS]
        metadataName := none
        name := none
        serialized := "irrelevant" } }

/-- C2 witness asset: both creator and name match. -/
def assetFullMatch : Asset :=
  { creators := some [some CNFT_CREATOR_ADDRESS]
    name := none
    content := some
      { creators := none
        metadataName := some "Meteora LP Army Certificate #1"
        name := none
        serialized := "certificate" } }

/-- C3/C1 scenario: signature 1 resolves to a transaction with a matching
instruction (after a parsed one), signature 2 to a non-matching one,
signature 3 raises, signature 4 resolves to a null transaction. -/
def envC3 : Env :=
  { failEnv with
      fetchTx := fun s =>
        if s == 1 then .ok (some ⟨[.parsed, .pdecoded METEORA_PROGRAM_ID ["X", "Y", "Z"]]⟩)
        else if s == 2 then .ok (some ⟨[.pdecoded "SomeOtherProgram" ["X", "Y", "Z"]]⟩)
        else if s == 4 then .ok none
        else .error () }

/-- C4 scenario: three pools reporting fees 0.02, 0.0 and 5.00 USD. -/
def envC4 : Env :=
  { failEnv with
      fee := fun _ pool =>
        if pool == "p1" then .ok (some (2/100))
        else if pool == "p2" then .ok (some 0)
        else if pool == "p3" then .ok (some 5)
        else .error () }

/-- C8 scenario: one signature with a block time, one with a null block
time, one with block time zero (falsy in Python). -/
def envC8 : Env :=
  { failEnv with
      sigs := fun _ => .ok [(1, some 5), (2, none), (3, some 0)] }

/-- C9 scenario: the wallet address fails to parse as a `Pubkey`, while the
blacklist and cNFT checks (which run before parsing) both succeed. -/
def envC9 : Env :=
  { failEnv with cnftItems := fun _ => .ok [none, some CNFT_MINT] }

/-! ### Helper lemmas -/

lemma listMin_cases (rest : List Nat) (t : Nat) :
    listMin t rest = t ∨ listMin t rest ∈ rest := by
  induction rest generalizing t with
  | nil => exact Or.inl rfl
  | cons b bs ih =>
    have h : listMin t (b :: bs) = listMin (min t b) bs := rfl
    rcases ih (min t b) with h1 | h1
    · rcases le_total t b with hle | hle
      · exact Or.inl (by rw [h, h1, min_eq_left hle])
      · exact Or.inr (by rw [h, h1, min_eq_right hle]; exact List.mem_cons_self b bs)
    · exact Or.inr (by rw [h]; exact List.mem_cons_of_mem b h1)

lemma listMin_mem (t : Nat) (rest : List Nat) : listMin t rest ∈ t :: rest := by
  rcases listMin_cases rest t with h | h
  · rw [h]; exact List.mem_cons_self t rest
  · exact List.mem_cons_of_mem t h

lemma listMin_le (rest : List Nat) (t : Nat) :
    ∀ x ∈ t :: rest, listMin t rest ≤ x := by
  induction rest generalizing t with
  | nil => intro x hx; rw [List.mem_singleton.mp hx]; exact le_refl _
  | cons b bs ih =>
    intro x hx
    have h : listMin t (b :: bs) = listMin (min t b) bs := rfl
    rcases List.mem_cons.mp hx with rfl | hx2
    · calc listMin x (b :: bs) ≤ min x b :=
            ih (min x b) _ (List.mem_cons_self _ _)
        _ ≤ x := min_le_left _ _
    · rcases List.mem_cons.mp hx2 with rfl | hx3
      · calc listMin t (x :: bs) ≤ min t x :=
              ih (min t x) _ (List.mem_cons_self _ _)
          _ ≤ x := min_le_right _ _
      · rw [h]; exact ih (min t b) x (List.mem_cons_of_mem _ hx3)

lemma bucket_toFinset_append {β : Type} [DecidableEq β] (f : Nat → β)
    (L : List Nat) (t : Nat) :
    ((L ++ [t]).map f).toFinset = insert (f t) (L.map f).toFinset := by
  rw [List.map_append, List.toFinset_append, Finset.union_comm]
  simp [← Finset.insert_eq]

lemma list_toFinset_map {β : Type} [DecidableEq β] (f : Nat → β)
    (l : List Nat) : (l.map f).toFinset = l.toFinset.image f := by
  ext b
  simp [List.mem_toFinset, List.mem_map, Finset.mem_image]

lemma keep_tx_iff (env : Env) (s : Nat) :
    keep_tx env s = true ↔
      ∃ tx, env.fetchTx s = .ok (some tx) ∧ hasMeteoraInstr tx = true := by
  cases h : env.fetchTx s with
  | ok o =>
    cases o with
    | some tx => simp [keep_tx, h]
    | none => simp [keep_tx, h]
  | error e => simp [keep_tx, h]

lemma firstPoolAccount_eq (l : List Instruction) :
    firstPoolAccount l =
      ((l.filter isMeteoraInstr).filterMap instrAccount2).head? := by
  induction l with
  | nil => rfl
  | cons i rest ih =>
    cases i with
    | parsed => simpa [firstPoolAccount, isMeteoraInstr] using ih
    | pdecoded pid accounts =>
      by_cases hp : (pid == METEORA_PROGRAM_ID) = true
      · cases ha : accounts[2]? with
        | some a =>
          simp [firstPoolAccount, hp, isMeteoraInstr, instrAccount2, ha]
        | none =>
          simpa [firstPoolAccount, hp, isMeteoraInstr, instrAccount2, ha]
            using ih
      · simpa [firstPoolAccount, hp, isMeteoraInstr] using ih

lemma feesFold_fixed_fields (env : Env) (w : String) (pools : List String)
    (r : WalletMetrics) :
    (feesFold env w pools r).wallet = r.wallet ∧
    (feesFold env w pools r).first_tx = r.first_tx ∧
    (feesFold env w pools r).active_weeks = r.active_weeks ∧
    (feesFold env w pools r).active_months = r.active_months ∧
    (feesFold env w pools r).cnft = r.cnft ∧
    (feesFold env w pools r).blacklist = r.blacklist := by
  induction pools generalizing r with
  | nil => simp [feesFold]
  | cons p ps ih => simpa [feesFold] using ih _

lemma feesFold_spec (env : Env) (w : String) (pools : List String)
    (r : WalletMetrics) :
    (feesFold env w pools r).total_fees
        = r.total_fees + (pools.map (get_pool_fees env w)).sum ∧
    (feesFold env w pools r).pools_with_fees
        = r.pools_with_fees
            + pools.countP fun p => decide ((1 : ℚ)/100 ≤ get_pool_fees env w p) := by
  induction pools generalizing r with
  | nil => simp [feesFold]
  | cons p ps ih =>
    have h := ih
      { r with
          total_fees := r.total_fees + get_pool_fees env w p
          pools_with_fees :=
            r.pools_with_fees
              + (if (1 : ℚ)/100 ≤ get_pool_fees env w p then 1 else 0) }
    constructor
    · rw [show feesFold env w (p :: ps) r = feesFold env w ps _ from rfl, h.1]
      simp [add_assoc]
    · rw [show feesFold env w (p :: ps) r = feesFold env w ps _ from rfl, h.2]
      simp only [List.countP_cons, decide_eq_true_eq]
      ring

/-! ### Claim theorems -/

/-- C10: `TaskProgress.percent` is total and never divides by zero: it
returns `0` whenever `total ≤ 0`, and whenever `0 ≤ current ≤ total` with
`total > 0` it returns an integer in the range `[0, 100]`. -/
theorem c10_percent_total_and_bounded (t : TaskProgress) :
    (t.total ≤ 0 → t.percent = 0) ∧
    (0 ≤ t.current → t.current ≤ t.total → 0 < t.total →
      0 ≤ t.percent ∧ t.percent ≤ 100) := by
  constructor
  · intro h
    simp [TaskProgress.percent, h]
  · intro h0 hct ht
    have htq : (0 : ℚ) < (t.total : ℚ) := by exact_mod_cast ht
    have hq0 : (0 : ℚ) ≤ ((t.current : ℚ) / (t.total : ℚ)) * 100 := by
      apply mul_nonneg _ (by norm_num)
      exact div_nonneg (by exact_mod_cast h0) (le_of_lt htq)
    have hq100 : ((t.current : ℚ) / (t.total : ℚ)) * 100 ≤ 100 := by
      have h1 : ((t.current : ℚ) / (t.total : ℚ)) ≤ 1 := by
        rw [div_le_one htq]
        exact_mod_cast hct
      calc ((t.current : ℚ) / (t.total : ℚ)) * 100
          ≤ 1 * 100 := by
            exact mul_le_mul_of_nonneg_right h1 (by norm_num)
        _ = 100 := by norm_num
    have hni : ¬ t.total ≤ 0 := not_le.mpr ht
    rw [TaskProgress.percent, if_neg hni, intTrunc, if_pos hq0]
    constructor
    · exact Int.floor_nonneg.mpr hq0
    · calc ⌊((t.current : ℚ) / (t.total : ℚ)) * 100⌋
          ≤ ⌊(100 : ℚ)⌋ := Int.floor_le_floor hq100
        _ = 100 := by norm_num

/-- C10 witness: a concrete `TaskProgress` state with `current = 1`,
`total = 3`. -/
theorem c10_witness :
    0 ≤ TaskProgress.percent ⟨"get_pool_fees", 1, 3, "running"⟩ ∧
      TaskProgress.percent ⟨"get_pool_fees", 1, 3, "running"⟩ ≤ 100 :=
  (c10_percent_total_and_bounded ⟨"get_pool_fees", 1, 3, "running"⟩).2
    (by decide) (by decide) (by decide)

/-- C7: appending one timestamp never decreases the `active_weeks` and
`active_months` counts of `calculate_activity_metrics`, and when the new
timestamp falls in an (ISO year, ISO week) — respectively (year, month) —
bucket already occupied by some element of the list, the corresponding
count is unchanged. -/
theorem c7_activity_counts_monotone (L : List Nat) (t : Nat) :
    (calculate_activity_metrics L).1 ≤ (calculate_activity_metrics (L ++ [t])).1 ∧
    (calculate_activity_metrics L).2 ≤ (calculate_activity_metrics (L ++ [t])).2 ∧
    ((∃ x ∈ L, weekBucket x = weekBucket t) →
      (calculate_activity_metrics (L ++ [t])).1 = (calculate_activity_metrics L).1) ∧
    ((∃ x ∈ L, monthBucket x = monthBucket t) →
      (calculate_activity_metrics (L ++ [t])).2 = (calculate_activity_metrics L).2) := by
  refine ⟨?_, ?_, ?_, ?_⟩
  · simp only [calculate_activity_metrics]
    rw [bucket_toFinset_append]
    exact Finset.card_le_card (Finset.subset_insert _ _)
  · simp only [calculate_activity_metrics]
    rw [bucket_toFinset_append]
    exact Finset.card_le_card (Finset.subset_insert _ _)
  · rintro ⟨x, hx, hb⟩
    simp only [calculate_activity_metrics]
    rw [bucket_toFinset_append, Finset.insert_eq_self.mpr]
    exact List.mem_toFinset.mpr (List.mem_map.mpr ⟨x, hx, hb⟩)
  · rintro ⟨x, hx, hb⟩
    simp only [calculate_activity_metrics]
    rw [bucket_toFinset_append, Finset.insert_eq_self.mpr]
    exact List.mem_toFinset.mpr (List.mem_map.mpr ⟨x, hx, hb⟩)

/-- C7 witness: a second timestamp one hour later on the same day leaves
both counts unchanged. -/
theorem c7_witness :
    (calculate_activity_metrics ([1650000000] ++ [1650003600])).1
        = (calculate_activity_metrics [1650000000]).1 ∧
    (calculate_activity_metrics ([1650000000] ++ [1650003600])).2
        = (calculate_activity_metrics [1650000000]).2 :=
  ⟨(c7_activity_counts_monotone [1650000000] 1650003600).2.2.1
      ⟨1650000000, List.mem_singleton.mpr rfl, by decide⟩,
   (c7_activity_counts_monotone [1650000000] 1650003600).2.2.2
      ⟨1650000000, List.mem_singleton.mpr rfl, by decide⟩⟩

/-- C5: on the empty timestamp list the first-transaction date is `"N/A"`
and both activity counts are `0`; on a nonempty list the first-transaction
date is the UTC calendar date of the minimum timestamp formatted
DD.MM.YYYY, `active_weeks` is the number of distinct (ISO year, ISO week)
pairs of the timestamps, and `active_months` the number of distinct
(year, month) pairs. -/
theorem c5_activity_metrics (L : List Nat) :
    (L = [] → first_tx_of L = "N/A" ∧ calculate_activity_metrics L = (0, 0)) ∧
    (L ≠ [] →
      (∃ m ∈ L, (∀ x ∈ L, m ≤ x) ∧ first_tx_of L = formatDMY (utcDate m)) ∧
      (calculate_activity_metrics L).1 = (L.toFinset.image weekBucket).card ∧
      (calculate_activity_metrics L).2 = (L.toFinset.image monthBucket).card) := by
  constructor
  · rintro rfl
    exact ⟨rfl, rfl⟩
  · intro hne
    refine ⟨?_, ?_, ?_⟩
    · match L, hne with
      | t :: rest, _ =>
        exact ⟨listMin t rest, listMin_mem t rest, listMin_le rest t, rfl⟩
    · simp only [calculate_activity_metrics]
      rw [list_toFinset_map]
    · simp only [calculate_activity_metrics]
      rw [list_toFinset_map]

/-- C5 witness: the list `[1700000000, 1650000000]` (2023-11-14 and
2022-04-15 UTC). -/
theorem c5_witness :
    (∃ m ∈ [1700000000, 1650000000],
        (∀ x ∈ [1700000000, 1650000000], m ≤ x) ∧
        first_tx_of [1700000000, 1650000000] = formatDMY (utcDate m)) ∧
    (calculate_activity_metrics [1700000000, 1650000000]).1
        = (([1700000000, 1650000000] : List Nat).toFinset.image weekBucket).card ∧
    (calculate_activity_metrics [1700000000, 1650000000]).2
        = (([1700000000, 1650000000] : List Nat).toFinset.image monthBucket).card :=
  (c5_activity_metrics [1700000000, 1650000000]).2 (by decide)

/-- C8: every record produced by `get_transactions` carries a block
timestamp taken from a signature whose block time was present (and
truthy), null-block-time signatures are dropped, a transport error yields
the empty list, and the protocol filter only passes records through
(subset of the fetched records). -/
theorem c8_records_have_timestamps (env : Env) (w : String) :
    (env.sigs w = .error () → get_transactions env w = []) ∧
    (∀ sl, env.sigs w = .ok sl →
      ∀ s tval, ((s, tval) ∈ get_transactions env w ↔
        (s, some tval) ∈ sl ∧ tval ≠ 0)) ∧
    (∀ p ∈ filter_meteora_transactions env (get_transactions env w),
        p ∈ get_transactions env w) := by
  refine ⟨?_, ?_, ?_⟩
  · intro h
    simp [get_transactions, h]
  · intro sl h s tval
    rw [get_transactions, h]
    simp only [List.mem_filterMap]
    constructor
    · rintro ⟨⟨s1, bt⟩, hmem, hf⟩
      cases bt with
      | none => simp at hf
      | some b =>
        by_cases hb : b = 0
        · subst hb; simp at hf
        · simp only [hb, beq_iff_eq, if_neg, Option.some.injEq,
            Prod.mk.injEq] at hf
          obtain ⟨rfl, rfl⟩ := hf
          exact ⟨hmem, hb⟩
    · rintro ⟨hmem, hne⟩
      exact ⟨(s, some tval), hmem, by simp [hne]⟩
  · intro p hp
    exact (List.mem_filter.mp hp).1

/-- C8 witness: of the fetched signatures `(1, some 5)`, `(2, none)` and
`(3, some 0)`, only the first yields a record; a failing fetch yields no
records. -/
theorem c8_witness :
    (1, 5) ∈ get_transactions envC8 "w" ∧
    ¬ (2, 7) ∈ get_transactions envC8 "w" ∧
    get_transactions failEnv "w" = [] :=
  ⟨((c8_records_have_timestamps envC8 "w").2.1
      [(1, some 5), (2, none), (3, some 0)] rfl 1 5).mpr ⟨by decide, by decide⟩,
   fun h =>
     by simpa using ((c8_records_have_timestamps envC8 "w").2.1
      [(1, some 5), (2, none), (3, some 0)] rfl 2 7).mp h,
   (c8_records_have_timestamps failEnv "w").1 rfl⟩

/-- C3: `filter_meteora_transactions` returns a subsequence of its input in
the same relative order, containing exactly those records whose
successfully fetched, non-null transaction has an instruction whose
program id equals the target program constant (the scan stopping at the
first match); a record whose fetch raises, or whose transaction is null,
is skipped without affecting the rest. -/
theorem c3_filter_meteora (env : Env) (txs : List (Nat × Nat)) :
    List.Sublist (filter_meteora_transactions env txs) txs ∧
    ∀ p, p ∈ filter_meteora_transactions env txs ↔
      p ∈ txs ∧ ∃ tx, env.fetchTx p.1 = .ok (some tx) ∧
        ∃ instr ∈ tx.instructions, isMeteoraInstr instr = true := by
  constructor
  · exact List.filter_sublist txs
  · intro p
    rw [filter_meteora_transactions, List.mem_filter, keep_tx_iff]
    simp only [hasMeteoraInstr, List.any_eq_true]

/-- C3 witness: signature 1 (matching instruction after a parsed one) is
kept; of the four fetched records only it survives. -/
theorem c3_witness :
    (1, 5) ∈ filter_meteora_transactions envC3 [(1, 5), (2, 6), (3, 7), (4, 8)] ∧
    ¬ (2, 6) ∈ filter_meteora_transactions envC3 [(1, 5), (2, 6), (3, 7), (4, 8)] :=
  ⟨((c3_filter_meteora envC3 [(1, 5), (2, 6), (3, 7), (4, 8)]).2 (1, 5)).mpr
      ⟨by decide,
       ⟨[Instruction.parsed, .pdecoded METEORA_PROGRAM_ID ["X", "Y", "Z"]]⟩,
       rfl, by decide⟩,
   by decide⟩

/-- C4: the fee aggregation adds, for every pool in the list, exactly the
fee value the per-pool lookup returned (`0` on an absent field or a failed
request, which never aborts the remaining pools), and counts exactly the
pools whose returned fee is at least `0.01`; on reported fees
`[0.02, 0.0, 5.00]` this gives `total_fees = 5.02` and
`pools_with_fees = 2`. -/
theorem c4_fee_aggregation :
    (∀ (env : Env) (w : String) (pools : List String) (r : WalletMetrics),
      (feesFold env w pools r).total_fees
          = r.total_fees + (pools.map (get_pool_fees env w)).sum ∧
      (feesFold env w pools r).pools_with_fees
          = r.pools_with_fees
              + pools.countP (fun p => decide ((1 : ℚ)/100 ≤ get_pool_fees env w p)) ∧
      ∀ pool, env.fee w pool = .error () → get_pool_fees env w pool = 0) ∧
    (feesFold envC4 "w" ["p1", "p2", "p3"] (initMetrics "w")).total_fees
        = 502/100 ∧
    (feesFold envC4 "w" ["p1", "p2", "p3"] (initMetrics "w")).pools_with_fees
        = 2 := by
  refine ⟨fun env w pools r => ⟨(feesFold_spec env w pools r).1,
    (feesFold_spec env w pools r).2, fun pool hf => ?_⟩, ?_, ?_⟩
  · rw [get_pool_fees, hf]
  · show (0 : ℚ) + 2/100 + 0 + 5 = 502/100
    norm_num
  · show 0 + (if (1 : ℚ)/100 ≤ 2/100 then 1 else 0)
        + (if (1 : ℚ)/100 ≤ 0 then 1 else 0)
        + (if (1 : ℚ)/100 ≤ 5 then 1 else 0) = 2
    norm_num

/-- C4 witness: a failed per-pool request contributes a zero fee. -/
theorem c4_witness : get_pool_fees failEnv "w" "pool" = 0 :=
  (c4_fee_aggregation.1 failEnv "w" [] (initMetrics "w")).2.2 "pool" rfl

/-- C1 counterexample: a transaction whose FIRST matching instruction has
only two accounts while a later matching instruction has three.  The
claim says such a transaction contributes no pool address; the code
(`except IndexError: continue`) moves on to the later instruction and
returns its index-2 account. -/
theorem c1_counterexample :
    extract_pool_address envC1 0 = some "P" ∧
    claimExtractPool envC1 0 = none := by
  exact ⟨rfl, rfl⟩

/-- C1 amended: the extraction returns the index-2 account of the first
matching instruction whose account list has length at least 3 (matching
instructions with shorter account lists are skipped, not fatal); a fetch
failure, a null transaction or the absence of any such instruction
contributes nothing; and the pool collection of `process_wallet` is the
deduplicated set of the extracted addresses. -/
theorem c1_amended_extraction (env : Env) (signature : Nat)
    (mtxs : List (Nat × Nat)) :
    extract_pool_address env signature = amendedExtractPool env signature ∧
    (pool_addresses env mtxs).Nodup ∧
    ∀ a, a ∈ pool_addresses env mtxs ↔
      ∃ p ∈ mtxs, extract_pool_address env p.1 = some a := by
  refine ⟨?_, List.nodup_dedup _, fun a => ?_⟩
  · rw [extract_pool_address, amendedExtractPool]
    cases h : env.fetchTx signature with
    | ok o =>
      cases o with
      | some tx => exact firstPoolAccount_eq tx.instructions
      | none => rfl
    | error e => rfl
  · rw [pool_addresses, List.mem_dedup, List.mem_filterMap]

/-- C1 witness: on the counterexample transaction the code and the amended
description agree, and the extracted address lands in the deduplicated
pool set. -/
theorem c1_witness :
    extract_pool_address envC1 0 = amendedExtractPool envC1 0 ∧
    "P" ∈ pool_addresses envC1 [(0, 17)] :=
  ⟨(c1_amended_extraction envC1 0 []).1,
   ((c1_amended_extraction envC1 0 [(0, 17)]).2.2 "P").mpr
      ⟨(0, 17), by decide, rfl⟩⟩

/-- C2 counterexample: an asset with the keyword in its serialized content
but no creator match anywhere is NOT reported by the code (the keyword
heuristic only runs for assets whose creator already matched), and an
asset whose creator match sits only at `content.creators` (no name match,
no keyword) is not caught by the fallback either (it looks only at the
top-level creator list); the claim reports both as certificate-holding. -/
theorem c2_counterexample :
    check_cnft_items [assetKeywordOnly] = false ∧
    claimCnftItems [assetKeywordOnly] = true ∧
    check_cnft_items [assetContentCreatorOnly] = false ∧
    claimCnftItems [assetContentCreatorOnly] = true := by
  refine ⟨?_, ?_, ?_, ?_⟩ <;> rfl

/-- C2 amended: the cNFT check reports the wallet as certificate-holding
exactly when some returned asset has both a creator match (top-level or
`content.creators`) and the name substring in one of its three name
fields; or some asset has such a creator match and its serialized content
contains the keyword substring case-insensitively; or some asset's
TOP-LEVEL creator list alone contains the creator address. -/
theorem c2_amended_cnft (items : List Asset) :
    check_cnft_items items = true ↔
      (∃ item ∈ items, creatorFound item = true ∧ nameMatch item = true) ∨
      (∃ item ∈ items, creatorFound item = true ∧ contentMeteora item = true) ∨
      (∃ item ∈ items, topCreatorMatch item = true) := by
  by_cases h : (items.any fun item =>
      (creatorFound item && nameMatch item)
        || (creatorFound item && contentMeteora item)) = true
  · rw [check_cnft_items, if_pos h]
    simp only [List.any_eq_true, Bool.or_eq_true, Bool.and_eq_true] at h
    simp only [true_iff]
    obtain ⟨item, hmem, hcase⟩ := h
    rcases hcase with h1 | h2
    · exact Or.inl ⟨item, hmem, h1⟩
    · exact Or.inr (Or.inl ⟨item, hmem, h2⟩)
  · rw [check_cnft_items, if_neg h]
    simp only [List.any_eq_true, Bool.or_eq_true, Bool.and_eq_true,
      not_exists, not_and, not_or] at h
    constructor
    · intro htop
      obtain ⟨item, hmem, hi⟩ := List.any_eq_true.mp htop
      exact Or.inr (Or.inr ⟨item, hmem, hi⟩)
    · rintro (⟨item, hmem, h1, h2⟩ | ⟨item, hmem, h1, h2⟩ | ⟨item, hmem, h1⟩)
      · exact absurd h2 ((h item hmem).1 h1)
      · exact absurd h2 ((h item hmem).2 h1)
      · exact List.any_eq_true.mpr ⟨item, hmem, h1⟩

/-- C2 witness: an asset carrying both the creator address and the
certificate name is reported. -/
theorem c2_witness : check_cnft_items [assetFullMatch] = true :=
  (c2_amended_cnft [assetFullMatch]).mpr
    (Or.inl ⟨assetFullMatch, List.mem_singleton.mpr rfl, by decide, by decide⟩)

/-- C6: whatever the collaborators do, `process_wallet` always returns a
`WalletMetrics` record for the requested wallet; a failing cNFT lookup
leaves `cnft = false`; a wallet address that fails to parse, or a failing
signature fetch, leaves the fee, pool, date and activity fields at their
defaults `0.0 / 0 / "N/A" / 0 / 0`; and in a multi-wallet batch each
wallet's record is the function of that wallet alone, so no error in one
wallet's processing affects another. -/
theorem c6_pipeline_never_raises (env : Env) (w : String) (bl : List String) :
    (process_wallet env w bl).wallet = w ∧
    (env.cnftItems w = .error () → (process_wallet env w bl).cnft = false) ∧
    (env.parseOk w = false →
      (process_wallet env w bl).total_fees = 0 ∧
      (process_wallet env w bl).pools_with_fees = 0 ∧
      (process_wallet env w bl).first_tx = "N/A" ∧
      (process_wallet env w bl).active_weeks = 0 ∧
      (process_wallet env w bl).active_months = 0) ∧
    (env.sigs w = .error () →
      (process_wallet env w bl).total_fees = 0 ∧
      (process_wallet env w bl).pools_with_fees = 0 ∧
      (process_wallet env w bl).first_tx = "N/A" ∧
      (process_wallet env w bl).active_weeks = 0 ∧
      (process_wallet env w bl).active_months = 0) ∧
    (∀ (addrs : List String) (i : Nat),
      (addrs.map fun a => process_wallet env a bl)[i]? =
        (addrs[i]?).map fun a => process_wallet env a bl) := by
  refine ⟨?_, ?_, ?_, ?_, ?_⟩
  · by_cases hp : env.parseOk w
    · have hfix := feesFold_fixed_fields env w
        (pool_addresses env
          (filter_meteora_transactions env (get_transactions env w)))
        { initMetrics w with
            blacklist := bl.contains w
            cnft := check_cnft env w
            first_tx := first_tx_of
              ((filter_meteora_transactions env (get_transactions env w)).map
                Prod.snd)
            active_weeks := (calculate_activity_metrics
              ((filter_meteora_transactions env (get_transactions env w)).map
                Prod.snd)).1
            active_months := (calculate_activity_metrics
              ((filter_meteora_transactions env (get_transactions env w)).map
                Prod.snd)).2 }
      simpa [process_wallet, hp, initMetrics] using hfix.1
    · simp [process_wallet, hp, initMetrics]
  · intro hc
    by_cases hp : env.parseOk w
    · have hfix := feesFold_fixed_fields env w
        (pool_addresses env
          (filter_meteora_transactions env (get_transactions env w)))
        { initMetrics w with
            blacklist := bl.contains w
            cnft := check_cnft env w
            first_tx := first_tx_of
              ((filter_meteora_transactions env (get_transactions env w)).map
                Prod.snd)
            active_weeks := (calculate_activity_metrics
              ((filter_meteora_transactions env (get_transactions env w)).map
                Prod.snd)).1
            active_months := (calculate_activity_metrics
              ((filter_meteora_transactions env (get_transactions env w)).map
                Prod.snd)).2 }
      have : (process_wallet env w bl).cnft = check_cnft env w := by
        simpa [process_wallet, hp, initMetrics] using hfix.2.2.2.2.1
      rw [this, check_cnft, hc]
    · have : (process_wallet env w bl).cnft = check_cnft env w := by
        simp [process_wallet, hp, initMetrics]
      rw [this, check_cnft, hc]
  · intro hp
    simp [process_wallet, hp, initMetrics]
  · intro hs
    by_cases hp : env.parseOk w
    · have hempty : get_transactions env w = [] := by
        simp [get_transactions, hs]
      simp [process_wallet, hp, hempty, filter_meteora_transactions,
        pool_addresses, feesFold, first_tx_of, calculate_activity_metrics,
        initMetrics]
    · simp [process_wallet, hp, initMetrics]
  · intro addrs i
    exact List.getElem?_map _ _ _

/-- C6 witness: the fully-failing environment still yields the default
record for the requested wallet. -/
theorem c6_witness :
    (process_wallet failEnv "w6" []).wallet = "w6" ∧
    (process_wallet failEnv "w6" []).cnft = false ∧
    (process_wallet failEnv "w6" []).first_tx = "N/A" ∧
    (process_wallet failEnv "w6" []).total_fees = 0 :=
  ⟨(c6_pipeline_never_raises failEnv "w6" []).1,
   (c6_pipeline_never_raises failEnv "w6" []).2.1 rfl,
   ((c6_pipeline_never_raises failEnv "w6" []).2.2.1 rfl).2.2.1,
   ((c6_pipeline_never_raises failEnv "w6" []).2.2.1 rfl).1⟩

/-- C9: when the wallet address fails to parse as a public key, the
returned record still reflects the actual blacklist and cNFT checks (both
run before address parsing), while the fee, pool, date and activity
fields keep their defaults — so the record is not all-defaults whenever
either early check succeeds. -/
theorem c9_parse_failure_keeps_early_checks (env : Env) (w : String)
    (bl : List String) (h : env.parseOk w = false) :
    (process_wallet env w bl).blacklist = bl.contains w ∧
    (process_wallet env w bl).cnft = check_cnft env w ∧
    (process_wallet env w bl).total_fees = 0 ∧
    (process_wallet env w bl).pools_with_fees = 0 ∧
    (process_wallet env w bl).first_tx = "N/A" ∧
    (process_wallet env w bl).active_weeks = 0 ∧
    (process_wallet env w bl).active_months = 0 := by
  simp [process_wallet, h, initMetrics]

/-- C9 witness: a wallet that is blacklisted and owns the target asset but
has an unparsable address: both early checks land in the record, the rest
stays at the defaults. -/
theorem c9_witness :
    (process_wallet envC9 "w0" ["w0"]).blacklist = (["w0"].contains "w0") ∧
    (process_wallet envC9 "w0" ["w0"]).cnft = check_cnft envC9 "w0" ∧
    (process_wallet envC9 "w0" ["w0"]).first_tx = "N/A" ∧
    check_cnft envC9 "w0" = true ∧
    (["w0"].contains "w0") = true :=
  ⟨(c9_parse_failure_keeps_early_checks envC9 "w0" ["w0"] rfl).1,
   (c9_parse_failure_keeps_early_checks envC9 "w0" ["w0"] rfl).2.1,
   (c9_parse_failure_keeps_early_checks envC9 "w0" ["w0"] rfl).2.2.2.2.1,
   by decide,
   by decide⟩

end MeteoraApp
